import Mathlib

/-!
Shallow embedding of the connection-resilience layer of xiaozhi-client:
the WebSocket `ConnectionManager`, the `HealthChecker` and the
`RestartStateMachine` of the web client, modelled from the TypeScript
sources.  Machine integers (ports, counters, millisecond timestamps)
are modelled as `Nat`/`Int`; fallible operations return `Option`/`Except`
or pair their result with an error report.
-/

/-- Connection lifecycle states of the `ConnectionManager`
(enum `ConnectionState` in the source). -/
inductive ConnectionState where
  | disconnected
  | connecting
  | connected
  | reconnecting
  | failed
  deriving DecidableEq

/-- Connection configuration (interface `ConnectionConfig`): timeouts,
reconnect interval and the reconnect-attempt ceiling, in milliseconds
and counts. -/
structure ConnectionConfig where
  connectTimeout : Nat
  messageTimeout : Nat
  reconnectInterval : Nat
  maxReconnectAttempts : Nat
  deriving DecidableEq

/-- The `DEFAULT_CONFIG` constant of the source. -/
def DEFAULT_CONFIG : ConnectionConfig :=
  { connectTimeout := 5000
    messageTimeout := 10000
    reconnectInterval := 2000
    maxReconnectAttempts := 5 }

/-- A WebSocket handle: an identity plus whether `readyState` is `OPEN`.
The id distinguishes distinct socket objects. -/
structure Socket where
  id : Nat
  readyStateOpen : Bool
  deriving DecidableEq

/-- How a `waitForMessage` promise settles: resolution by a matching
message, rejection by its timeout timer, or rejection with the
connection-closed error from `disconnect()`. -/
inductive SettleOutcome where
  | resolvedWith
  | rejectedTimeout
  | rejectedClosed
  deriving DecidableEq

/-- One entry of the `pendingMessages` map, as seen by the code paths
that race for it: whether the entry is still in the map, whether its
timeout timer is still scheduled, and how (if at all) its promise has
settled. -/
structure PendingEntry where
  inMap : Bool
  timerAlive : Bool
  settled : Option SettleOutcome
  deriving DecidableEq

/-- The state installed by one `waitForMessage(type, timeout)` call:
the pending-map entry together with whether the one-shot handler it
registered via `addMessageHandler` is still in the handler set for
`type`. -/
structure WaitState where
  entry : PendingEntry
  handlerRegistered : Bool
  deriving DecidableEq

/-- The three events that can act on one pending `waitForMessage` call:
its timeout timer fires, a message whose `type` matches arrives, or
`disconnect()` is called. -/
inductive PendingEvent where
  | timerFires
  | matchingMessage
  | disconnectCalled
  deriving DecidableEq

namespace ConnectionManager

/-- State right after `waitForMessage` registers: the entry is in the
map with a live timer, the promise is unsettled, and the one-shot
handler is registered. -/
def waitInit : WaitState :=
  { entry := { inMap := true, timerAlive := true, settled := none }
    handlerRegistered := true }

/-- One event acting on a `waitForMessage` call, following the source:
the timer callback deletes the map entry and rejects (it does not touch
the handler set); the one-shot handler, when a matching message arrives,
acts only if the entry is still in the map, and then clears the timer,
deletes the entry, removes itself via `removeMessageHandler`, and
resolves; `disconnect()` clears the timer and rejects every entry still
in the map with the connection-closed error (it does not touch the
handler set either). -/
def waitStep (s : WaitState) (ev : PendingEvent) : WaitState :=
  match ev with
  | .timerFires =>
      if s.entry.timerAlive then
        { entry := { inMap := false, timerAlive := false
                     settled := some .rejectedTimeout }
          handlerRegistered := s.handlerRegistered }
      else s
  | .matchingMessage =>
      if s.handlerRegistered ∧ s.entry.inMap then
        { entry := { inMap := false, timerAlive := false
                     settled := some .resolvedWith }
          handlerRegistered := false }
      else s
  | .disconnectCalled =>
      if s.entry.inMap then
        { entry := { inMap := false, timerAlive := false
                     settled := some .rejectedClosed }
          handlerRegistered := s.handlerRegistered }
      else s

/-- Folding a sequence of events over a `waitForMessage` call. -/
def waitRun (s : WaitState) (evs : List PendingEvent) : WaitState :=
  evs.foldl waitStep s

/-- The settlement each racing event produces when it is the first to
act on a live entry. -/
def settleOf : PendingEvent → SettleOutcome
  | .timerFires => .rejectedTimeout
  | .matchingMessage => .resolvedWith
  | .disconnectCalled => .rejectedClosed

/-- Mutable state of one `ConnectionManager` instance: the private
fields of the class.  `reconnectTimerSet` models whether a reconnect
timer is currently scheduled; `pendingMessages` maps message ids to
their pending entries. -/
structure ConnState where
  currentConnection : Option Socket
  connectionState : ConnectionState
  currentPort : Option Nat
  reconnectAttempts : Nat
  reconnectTimerSet : Bool
  pendingMessages : List (Nat × PendingEntry)
  deriving DecidableEq

/-- Method `isConnected()`: state is CONNECTED and the current socket's
`readyState` is `OPEN`. -/
def isConnected (m : ConnState) : Bool :=
  match m.connectionState, m.currentConnection with
  | .connected, some s => s.readyStateOpen
  | _, _ => false

/-- Method `disconnect()`: clears the reconnect timer, rejects every
pending message with the connection-closed error (releasing its timer)
and clears the map, closes and drops the socket, transitions to
DISCONNECTED, nulls the port and resets the reconnect counter.  The
second component reports the rejection delivered to each formerly
pending promise. -/
def disconnect (m : ConnState) : ConnState × List (Nat × SettleOutcome) :=
  ({ currentConnection := none
     connectionState := .disconnected
     currentPort := none
     reconnectAttempts := 0
     reconnectTimerSet := false
     pendingMessages := [] },
   m.pendingMessages.map (fun p => (p.1, SettleOutcome.rejectedClosed)))

/-- Outcome of the synchronous head of `connect(port)`: either the live
socket is returned unchanged (the idempotent early return), or a fresh
socket is being opened. -/
inductive ConnectOutcome where
  | reused (sock : Socket)
  | opening (sock : Socket)
  deriving DecidableEq

/-- Synchronous head of `connect(port)`: if already connected to the
same port, return the current connection unchanged; otherwise run
`disconnect()`, record the port, transition to CONNECTING and begin
opening a fresh socket (`fresh`).  In the early-return branch the
source dereferences `this.currentConnection!`, which `isConnected`
guarantees to be non-null; the `none` fallback there is unreachable. -/
def connectStart (m : ConnState) (port : Nat) (fresh : Socket) :
    ConnState × ConnectOutcome :=
  if isConnected m = true ∧ m.currentPort = some port then
    match m.currentConnection with
    | some s => (m, .reused s)
    | none => (m, .reused fresh)
  else
    let m1 := (disconnect m).1
    ({ m1 with
        currentPort := some port
        connectionState := .connecting
        currentConnection := some fresh },
     .opening fresh)

/-- Method `handleUnexpectedDisconnect()`: if the reconnect counter has
reached the ceiling, transition to FAILED and schedule nothing further;
otherwise transition to RECONNECTING, increment the counter and
schedule a reconnect timer. -/
def handleUnexpectedDisconnect (cfg : ConnectionConfig) (m : ConnState) :
    ConnState :=
  if cfg.maxReconnectAttempts ≤ m.reconnectAttempts then
    { m with connectionState := .failed, reconnectTimerSet := false }
  else
    { m with
        connectionState := .reconnecting
        reconnectAttempts := m.reconnectAttempts + 1
        reconnectTimerSet := true }

/-- Events driving the reconnection dynamics of one manager. -/
inductive ReconnectEvent where
  | unexpectedClose
  | scheduledRetryFails
  | scheduledRetrySucceeds
  deriving DecidableEq

/-- One reconnection-related event, following the source.
`unexpectedClose`: the socket's `onclose` fires; while CONNECTED this
calls `handleUnexpectedDisconnect`, otherwise it just records
DISCONNECTED.  The two retry events model the scheduled reconnect
timer firing (guarded as in the source by a non-null port and state
RECONNECTING) and the inner `connect(this.currentPort)` failing or
succeeding.  Crucially, `connect` begins with `this.disconnect()`,
which resets the reconnect counter, before re-recording the port and
attempting the socket; on failure the catch calls
`handleUnexpectedDisconnect` again (the failed socket is never open and
is modelled as `none`), on success `onopen` sets CONNECTED and resets
the counter (the fresh open socket's id is abstracted as 0). -/
def reconnectStep (cfg : ConnectionConfig) (m : ConnState)
    (ev : ReconnectEvent) : ConnState :=
  match ev with
  | .unexpectedClose =>
      if m.connectionState = ConnectionState.connected then
        handleUnexpectedDisconnect cfg
          { m with currentConnection :=
              m.currentConnection.map (fun s => { s with readyStateOpen := false }) }
      else { m with connectionState := .disconnected }
  | .scheduledRetryFails =>
      if m.reconnectTimerSet = true ∧ m.connectionState = .reconnecting ∧
          m.currentPort ≠ none then
        let md := (disconnect m).1
        handleUnexpectedDisconnect cfg
          { md with currentPort := m.currentPort, connectionState := .failed }
      else { m with reconnectTimerSet := false }
  | .scheduledRetrySucceeds =>
      if m.reconnectTimerSet = true ∧ m.connectionState = .reconnecting ∧
          m.currentPort ≠ none then
        let md := (disconnect m).1
        { md with
            currentPort := m.currentPort
            connectionState := .connected
            reconnectAttempts := 0
            currentConnection := some { id := 0, readyStateOpen := true } }
      else { m with reconnectTimerSet := false }

end ConnectionManager

/-- Body of a `/api/health` response as the client reads it
(`data` in `getHealthStatus`): a declared status string plus optional
timestamp, uptime (seconds), port, version and error fields. -/
structure HealthBody where
  status : String
  timestamp : Option Int
  uptime : Option Int
  port : Option Nat
  version : Option String
  error : Option String
  deriving DecidableEq

/-- Outcome of one `fetch` of the health endpoint: a 2xx response whose
body parsed, a non-2xx response, or a thrown failure (network error,
abort on timeout, or body-parse failure — all reach the same catch). -/
inductive FetchOutcome where
  | okResponse (body : HealthBody)
  | errorResponse (status : Nat) (statusText : String)
  | thrown (msg : String)
  deriving DecidableEq

/-- JavaScript `a || b` on an optional number: `b` when `a` is absent
or `0` (falsy). -/
def jsOrInt (v : Option Int) (d : Int) : Int :=
  match v with
  | some t => if t = 0 then d else t
  | none => d

/-- JavaScript `a || b` on an optional natural. -/
def jsOrNat (v : Option Nat) (d : Nat) : Nat :=
  match v with
  | some t => if t = 0 then d else t
  | none => d

/-- Interface `HealthCheckResult` as populated by `getHealthStatus`:
every branch sets `healthy`, `timestamp` and `port`. -/
structure HealthCheckResult where
  healthy : Bool
  timestamp : Int
  uptime : Option Int
  port : Nat
  version : Option String
  details : Option HealthBody
  error : Option String
  deriving DecidableEq

/-- One entry of the `checkCache` map: a result and its expiry time. -/
structure CacheEntry where
  result : HealthCheckResult
  expiry : Int
  deriving DecidableEq

namespace HealthChecker

/-- The `CACHE_TTL` constant (milliseconds). -/
def CACHE_TTL : Int := 2000

/-- Result and cache expiry computed by the non-cached path of
`getHealthStatus(port)`: a 2xx body maps its declared status to
`healthy`, defaults a missing/zero timestamp to the probe time and a
missing/zero port to the probed port, and carries the body's error only
when unhealthy; a non-2xx response and a thrown failure both synthesize
an unhealthy result carrying the error description.  Responses (2xx or
not) are cached for `CACHE_TTL`; thrown failures for 500 ms. -/
def fetchResult (port : Nat) (outcome : FetchOutcome) (now : Int) :
    HealthCheckResult × Int :=
  match outcome with
  | .okResponse data =>
      ({ healthy := data.status == "healthy"
         timestamp := jsOrInt data.timestamp now
         uptime := data.uptime
         port := jsOrNat data.port port
         version := data.version
         details := some data
         error := if data.status == "healthy" then none else data.error },
       now + CACHE_TTL)
  | .errorResponse status statusText =>
      ({ healthy := false
         timestamp := now
         uptime := none
         port := port
         version := none
         details := none
         error := some ("HTTP " ++ toString status ++ ": " ++ statusText) },
       now + CACHE_TTL)
  | .thrown msg =>
      ({ healthy := false
         timestamp := now
         uptime := none
         port := port
         version := none
         details := none
         error := some msg },
       now + 500)

/-- Method `getHealthStatus(port)`, per port: returns the cached result
while the cache entry is unexpired; otherwise performs the probe
(`outcome` is what the fetch produced), writes the outcome into the
cache with the branch's TTL, and returns it. -/
def getHealthStatus (cached : Option CacheEntry) (port : Nat)
    (outcome : FetchOutcome) (now : Int) : HealthCheckResult × CacheEntry :=
  match cached with
  | some c =>
      if now < c.expiry then (c.result, c)
      else
        let fr := fetchResult port outcome now
        (fr.1, { result := fr.1, expiry := fr.2 })
  | none =>
      let fr := fetchResult port outcome now
      (fr.1, { result := fr.1, expiry := fr.2 })

/-- Method `checkServiceHealth(port)`: the `healthy` flag of
`getHealthStatus`, with any thrown error mapped to `false` (the model
is total, so the catch is the identity). -/
def checkServiceHealth (cached : Option CacheEntry) (port : Nat)
    (outcome : FetchOutcome) (now : Int) : Bool :=
  (getHealthStatus cached port outcome now).1.healthy

/-- Method `verifyServiceRestart(oldTimestamp, port)`: probes via
`getHealthStatus`; unhealthy fails; otherwise succeeds when the
result's timestamp is truthy and strictly newer than `oldTimestamp`,
or, failing that, when a reported uptime puts the estimated start time
`now - uptime * 1000` strictly after `oldTimestamp`; any thrown error
yields `false` (total model: the probe itself never throws). -/
def verifyServiceRestart (oldTimestamp : Int) (cached : Option CacheEntry)
    (port : Nat) (outcome : FetchOutcome) (now : Int) : Bool :=
  let healthStatus := (getHealthStatus cached port outcome now).1
  if healthStatus.healthy = false then false
  else if healthStatus.timestamp ≠ 0 ∧ healthStatus.timestamp > oldTimestamp then
    true
  else
    match healthStatus.uptime with
    | some u => decide (now - u * 1000 > oldTimestamp)
    | none => false

end HealthChecker

/-- Reading of claim C7, following the spec's words: `verifyRestarted`
returns true iff the target is healthy and its reported start time —
taken directly from the reported timestamp, or derived from the
reported uptime as now minus uptime in seconds — is strictly after
`previousTimestamp`; in all other cases, including thrown errors, it
returns false. -/
def claimedVerifyRestarted (previousTimestamp : Int) (outcome : FetchOutcome)
    (now : Int) : Bool :=
  match outcome with
  | .okResponse data =>
      (data.status == "healthy") &&
        ((match data.timestamp with
          | some t => decide (t > previousTimestamp)
          | none => false) ||
         (match data.uptime with
          | some u => decide (now - u * 1000 > previousTimestamp)
          | none => false))
  | _ => false

/-- Amended reading of claim C7: same as the spec's reading except that
the direct-timestamp path uses the result's timestamp field, which
`getHealthStatus` defaults to the probe time when the target reports no
(or a zero) timestamp, and which must be nonzero; the uptime-derived
path is consulted only as stated. -/
def amendedVerifyRestarted (previousTimestamp : Int) (outcome : FetchOutcome)
    (now : Int) : Bool :=
  match outcome with
  | .okResponse data =>
      (data.status == "healthy") &&
        (let ts := jsOrInt data.timestamp now
         (decide (ts ≠ 0) && decide (ts > previousTimestamp)) ||
         (match data.uptime with
          | some u => decide (now - u * 1000 > previousTimestamp)
          | none => false))
  | _ => false

/-- Phases of the restart protocol (enum `RestartState`). -/
inductive RestartState where
  | idle
  | initiating
  | restarting
  | reconnecting
  | verifying
  | completed
  | failed
  deriving DecidableEq

/-- Interface `RestartContext`: the record describing one in-progress
restart operation. -/
structure RestartContext where
  currentPort : Nat
  targetPort : Option Nat
  startTime : Int
  attempts : Nat
  maxAttempts : Nat
  timeout : Nat
  error : Option String
  restartId : Option String
  deriving DecidableEq

/-- Observable state of one `RestartStateMachine` instance: current
phase and current context. -/
structure RestartMachineState where
  state : RestartState
  context : Option RestartContext
  deriving DecidableEq

/-- Error signalled by `restart()` when a restart is already active. -/
inductive RestartError where
  | alreadyInProgress (current : RestartState)
  deriving DecidableEq

/-- The persisted `{state, context}` blob written to local storage on
every transition. -/
structure PersistedData where
  state : RestartState
  context : RestartContext
  deriving DecidableEq

/-- What one `restoreState()` call did: the boolean it returned, the
machine afterwards, whether it cleared the persisted storage, and the
phase handler it re-entered (if any). -/
structure RestoreOutcome where
  returned : Bool
  machine : RestartMachineState
  clearedStorage : Bool
  reenteredPhase : Option RestartState
  deriving DecidableEq

/-- The content of a `restartVerificationResponse` message's nested
`data` object as the server builds it: `restarted` and `healthy`
booleans (absent fields modelled as `none`). -/
structure VerificationData where
  restarted : Option Bool
  healthy : Option Bool
  deriving DecidableEq

/-- A wire message as the verifying phase may receive it: its `type`
tag, an optional nested `data` object, and an optional top-level
`restarted` field (`restartedTop`), which the spec's wire-shape
description posits but which the server never sends — it nests
`restarted` inside `data`. -/
structure WireMessage where
  type : String
  data : Option VerificationData
  restartedTop : Option Bool
  deriving DecidableEq

/-- Failures of the verifying phase handler. -/
inductive VerifyFailure where
  | noResponse
  | notConfirmed
  deriving DecidableEq

namespace RestartStateMachine

/-- Method `restart(currentPort, targetPort?)`: rejects immediately
with a restart-already-in-progress error when the state is not IDLE
(before touching the context); otherwise constructs a fresh context
(attempts 0, ceiling 30, overall timeout 60000 ms, a fresh restart id),
persists it and enters the INITIATING phase.  The model covers the
synchronous entry of the call: the error branch, and the successful
branch up to the point where the INITIATING handler starts. -/
def restart (m : RestartMachineState) (currentPort : Nat)
    (targetPort : Option Nat) (now : Int) (rid : String) :
    RestartMachineState × Option RestartError :=
  if m.state ≠ RestartState.idle then
    (m, some (.alreadyInProgress m.state))
  else
    ({ state := .initiating
       context := some
         { currentPort := currentPort
           targetPort := targetPort
           startTime := now
           attempts := 0
           maxAttempts := 30
           timeout := 60000
           error := none
           restartId := some rid } },
     none)

/-- Method `restoreState()`: with nothing persisted it returns false;
with a persisted record whose context is more than five minutes old it
clears the storage and returns false; otherwise it restores the saved
state and context, re-enters the saved phase's handler when that phase
is non-terminal (not IDLE, COMPLETED or FAILED), and returns true. -/
def restoreState (m : RestartMachineState) (saved : Option PersistedData)
    (now : Int) : RestoreOutcome :=
  match saved with
  | none =>
      { returned := false, machine := m, clearedStorage := false
        reenteredPhase := none }
  | some d =>
      if now - d.context.startTime > 5 * 60 * 1000 then
        { returned := false, machine := m, clearedStorage := true
          reenteredPhase := none }
      else
        let m1 : RestartMachineState := { state := d.state, context := some d.context }
        if d.state ≠ RestartState.idle ∧ d.state ≠ RestartState.completed ∧
            d.state ≠ RestartState.failed then
          { returned := true, machine := m1, clearedStorage := false
            reenteredPhase := some d.state }
        else
          { returned := true, machine := m1, clearedStorage := false
            reenteredPhase := none }

/-- Truthiness of `response.data?.restarted`: true exactly when the
nested `data` object is present and its `restarted` field is `true`. -/
def truthyRestarted (msg : WireMessage) : Bool :=
  match msg.data with
  | some d => d.restarted.getD false
  | none => false

/-- The WebSocket-URL update the verifying phase performs on success:
when the operation relocates to a different port, the new port is
persisted for future connections. -/
def urlRelocation (ctx : RestartContext) : Option Nat :=
  match ctx.targetPort with
  | some tp => if tp ≠ ctx.currentPort then some tp else none
  | none => none

/-- Method `handleVerifying()`: awaits the `restartVerificationResponse`
message (`response = none` models the wait rejecting, e.g. on its 10 s
timeout), independently obtains `isHealthy` from
`healthChecker.checkServiceHealth(targetPort)`, and succeeds — updating
the stored URL on relocation and transitioning to COMPLETED — exactly
when `isHealthy` holds and `response.data?.restarted` is truthy;
otherwise the phase throws. -/
def handleVerifying (ctx : RestartContext) (response : Option WireMessage)
    (isHealthy : Bool) : Except VerifyFailure (RestartState × Option Nat) :=
  match response with
  | none => .error .noResponse
  | some msg =>
      if isHealthy && truthyRestarted msg then
        .ok (.completed, urlRelocation ctx)
      else
        .error .notConfirmed

end RestartStateMachine

/-- A manager connected to port 9999 over an open socket. -/
def connectedSample : ConnectionManager.ConnState :=
  { currentConnection := some { id := 7, readyStateOpen := true }
    connectionState := .connected
    currentPort := some 9999
    reconnectAttempts := 0
    reconnectTimerSet := false
    pendingMessages := [] }

/-- The state the manager loops through when every scheduled reconnect
attempt fails: RECONNECTING with the counter at 1 and a retry
scheduled. -/
def reconnectLoopState : ConnectionManager.ConnState :=
  { currentConnection := none
    connectionState := .reconnecting
    currentPort := some 9999
    reconnectAttempts := 1
    reconnectTimerSet := true
    pendingMessages := [] }

/-- A restart context in flight on port 9999 without relocation. -/
def verifyCtxSample : RestartContext :=
  { currentPort := 9999
    targetPort := none
    startTime := 100
    attempts := 1
    maxAttempts := 30
    timeout := 60000
    error := none
    restartId := some "restart_x" }

/-- An orchestrator in the middle of the VERIFYING phase. -/
def inProgressSample : RestartMachineState :=
  { state := .verifying, context := some verifyCtxSample }

/-- An idle orchestrator. -/
def idleMachineSample : RestartMachineState :=
  { state := .idle, context := none }

/-- The `restartVerificationResponse` exactly as `WebServer.ts` emits
it: `restarted` and `healthy` nested inside `data`, no top-level
`restarted` field. -/
def serverVerificationMsg : WireMessage :=
  { type := "restartVerificationResponse"
    data := some { restarted := some true, healthy := some true }
    restartedTop := none }

/-- A message matching the spec's claimed wire shape instead: a
top-level `restarted: true` and no nested `data` object. -/
def topLevelOnlyMsg : WireMessage :=
  { type := "restartVerificationResponse"
    data := none
    restartedTop := some true }

/-- A 2xx health body declaring itself unhealthy. -/
def unhealthyBodySample : HealthBody :=
  { status := "unhealthy"
    timestamp := some 5
    uptime := none
    port := some 9999
    version := none
    error := some "Database connection failed" }

/-- A healthy body that reports an uptime but no timestamp, from a
service that has been up far longer than the restart window. -/
def aliveNoTimestampBody : HealthBody :=
  { status := "healthy"
    timestamp := none
    uptime := some 10000
    port := some 9999
    version := none
    error := none }

/-- TTL the amended reading of claim C6 assigns to a probe outcome:
`CACHE_TTL` for every received HTTP response, healthy or not, and
500 ms only for thrown failures. -/
def responseTTL (outcome : FetchOutcome) : Int :=
  match outcome with
  | .thrown _ => 500
  | _ => HealthChecker.CACHE_TTL

/-- Helper: a call whose entry has left the map and whose timer is gone
can no longer be acted on — every further event is the identity. -/
theorem waitStep_noop (s : WaitState) (ev : PendingEvent)
    (h1 : s.entry.inMap = false) (h2 : s.entry.timerAlive = false) :
    ConnectionManager.waitStep s ev = s := by
  cases ev <;> simp [ConnectionManager.waitStep, h1, h2]

/-- Helper: event sequences are inert on a call whose entry and timer
are gone. -/
theorem waitRun_noop (s : WaitState) (evs : List PendingEvent)
    (h1 : s.entry.inMap = false) (h2 : s.entry.timerAlive = false) :
    ConnectionManager.waitRun s evs = s := by
  induction evs with
  | nil => rfl
  | cons ev evs ih =>
      show ConnectionManager.waitRun (ConnectionManager.waitStep s ev) evs = s
      rw [waitStep_noop s ev h1 h2, ih]

/-- Helper: the first event to act on a fresh `waitForMessage` call
settles it and evicts the entry and timer. -/
theorem waitStep_first (ev : PendingEvent) :
    (ConnectionManager.waitStep ConnectionManager.waitInit ev).entry.inMap = false ∧
    (ConnectionManager.waitStep ConnectionManager.waitInit ev).entry.timerAlive = false ∧
    (ConnectionManager.waitStep ConnectionManager.waitInit ev).entry.settled =
      some (ConnectionManager.settleOf ev) := by
  cases ev <;> decide

/-- C1: while a restart is in progress (state ≠ Idle), `restart()`
rejects immediately with the restart-already-in-progress error, and the
orchestrator's state and the in-progress restart's context are left
unchanged by the rejected call. -/
theorem restart_rejects_when_not_idle (m : RestartMachineState) (cp : Nat)
    (tp : Option Nat) (now : Int) (rid : String)
    (h : m.state ≠ RestartState.idle) :
    RestartStateMachine.restart m cp tp now rid =
      (m, some (RestartError.alreadyInProgress m.state)) := by
  unfold RestartStateMachine.restart
  rw [if_pos h]

/-- Witness for C1: a second restart requested while the orchestrator
is VERIFYING is rejected and changes nothing. -/
theorem restart_rejects_when_not_idle_witness :
    RestartStateMachine.restart inProgressSample 9999 none 200 "restart_y" =
      (inProgressSample,
       some (RestartError.alreadyInProgress RestartState.verifying)) :=
  restart_rejects_when_not_idle inProgressSample 9999 none 200 "restart_y"
    (by decide)

/-- C2 counterexample: on the timeout path of `waitForMessage` the
promise is rejected and the pending entry removed, but the one-shot
handler stays registered in the handler set — the claim says it is
removed together with the timer. -/
theorem waitForMessage_timeout_keeps_handler_cx :
    (ConnectionManager.waitStep ConnectionManager.waitInit
        PendingEvent.timerFires).entry.settled =
      some SettleOutcome.rejectedTimeout ∧
    (ConnectionManager.waitStep ConnectionManager.waitInit
        PendingEvent.timerFires).handlerRegistered = true := by
  decide

/-- C2 (amended): when `waitForMessage` settles by a matching message,
the pending entry, its timer and the one-shot handler are all removed;
when it settles by timeout, the entry and timer are removed but the
one-shot handler remains registered. -/
theorem waitForMessage_cleanup_amended :
    ConnectionManager.waitStep ConnectionManager.waitInit
        PendingEvent.matchingMessage =
      { entry := { inMap := false, timerAlive := false
                   settled := some SettleOutcome.resolvedWith }
        handlerRegistered := false } ∧
    ConnectionManager.waitStep ConnectionManager.waitInit
        PendingEvent.timerFires =
      { entry := { inMap := false, timerAlive := false
                   settled := some SettleOutcome.rejectedTimeout }
        handlerRegistered := true } := by
  decide

/-- C8: a pending `waitForMessage` entry is settled exactly once, by
whichever of timeout, matching reply or disconnect acts first — every
later event is inert, so the run of any event sequence equals the
single first step, whose settlement matches that event; and
`disconnect()` clears the whole pending map while rejecting every
formerly pending promise with the connection-closed error. -/
theorem pending_settled_exactly_once (ev : PendingEvent)
    (evs : List PendingEvent) (m : ConnectionManager.ConnState) :
    ConnectionManager.waitRun ConnectionManager.waitInit (ev :: evs) =
      ConnectionManager.waitStep ConnectionManager.waitInit ev ∧
    (ConnectionManager.waitStep ConnectionManager.waitInit ev).entry.settled =
      some (ConnectionManager.settleOf ev) ∧
    (ConnectionManager.waitStep ConnectionManager.waitInit ev).entry.inMap =
      false ∧
    (ConnectionManager.disconnect m).1.pendingMessages = [] ∧
    (ConnectionManager.disconnect m).2 =
      m.pendingMessages.map (fun p => (p.1, SettleOutcome.rejectedClosed)) := by
  obtain ⟨h1, h2, h3⟩ := waitStep_first ev
  refine ⟨?_, h3, h1, rfl, rfl⟩
  show ConnectionManager.waitRun
      (ConnectionManager.waitStep ConnectionManager.waitInit ev) evs = _
  exact waitRun_noop _ evs h1 h2

/-- C9: `connect(p)` while already Connected to `p` over an open socket
returns the same live socket handle, opens no new socket, and leaves
the whole manager state — including the reconnect counter — unchanged. -/
theorem connect_idempotent_when_connected (m : ConnectionManager.ConnState)
    (p : Nat) (fresh : Socket)
    (h1 : ConnectionManager.isConnected m = true)
    (h2 : m.currentPort = some p) :
    ConnectionManager.connectStart m p fresh =
      (m, ConnectionManager.ConnectOutcome.reused (m.currentConnection.getD fresh)) := by
  unfold ConnectionManager.connectStart
  rw [if_pos ⟨h1, h2⟩]
  cases hc : m.currentConnection with
  | none =>
      exfalso
      unfold ConnectionManager.isConnected at h1
      rw [hc] at h1
      cases m.connectionState <;> simp at h1
  | some s => simp [hc]

/-- Witness for C9: reconnecting to port 9999 while connected to it
returns the existing socket (id 7) and the state unchanged. -/
theorem connect_idempotent_when_connected_witness :
    ConnectionManager.connectStart connectedSample 9999
        { id := 8, readyStateOpen := false } =
      (connectedSample,
       ConnectionManager.ConnectOutcome.reused { id := 7, readyStateOpen := true }) :=
  connect_idempotent_when_connected connectedSample 9999
    { id := 8, readyStateOpen := false } (by decide) (by decide)

/-- C3 counterexample: the verifying phase completes on the message the
server actually sends — `restarted` nested inside `data`, with no
top-level `restarted` boolean — and throws on a message that carries
`restarted: true` only at top level (the wire shape the claim states),
even with the health probe healthy.  So reaching Completed neither
requires nor honours a top-level `restarted` field. -/
theorem handleVerifying_wire_shape_cx :
    RestartStateMachine.handleVerifying verifyCtxSample
        (some serverVerificationMsg) true =
      Except.ok (RestartState.completed, none) ∧
    serverVerificationMsg.restartedTop = none ∧
    RestartStateMachine.handleVerifying verifyCtxSample
        (some topLevelOnlyMsg) true =
      Except.error VerifyFailure.notConfirmed ∧
    topLevelOnlyMsg.restartedTop = some true :=
  ⟨rfl, rfl, rfl, rfl⟩

/-- C3 (amended): the verifying phase transitions to Completed exactly
when the health probe reports healthy and the awaited
`restartVerificationResponse` carries a truthy `restarted` inside its
nested `data` object (the shape the server emits); if the wait fails or
either confirmation is missing or false, the phase throws. -/
theorem handleVerifying_completed_iff_nested (ctx : RestartContext)
    (msg : WireMessage) (healthy : Bool) :
    (RestartStateMachine.handleVerifying ctx (some msg) healthy =
        Except.ok (RestartState.completed, RestartStateMachine.urlRelocation ctx) ↔
      healthy = true ∧ RestartStateMachine.truthyRestarted msg = true) ∧
    RestartStateMachine.handleVerifying ctx none healthy =
      Except.error VerifyFailure.noResponse := by
  refine ⟨⟨?_, ?_⟩, rfl⟩
  · intro h
    simp only [RestartStateMachine.handleVerifying] at h
    by_cases hb : (healthy && RestartStateMachine.truthyRestarted msg) = true
    · exact Bool.and_eq_true _ _ |>.mp hb
    · rw [if_neg hb] at h
      exact absurd h (by simp)
  · rintro ⟨ha, hb⟩
    simp only [RestartStateMachine.handleVerifying, ha, hb]
    rfl

/-- Witness for C3 (amended): with a healthy probe and the server's
nested-`data` response, the phase completes without relocation. -/
theorem handleVerifying_completed_iff_nested_witness :
    RestartStateMachine.handleVerifying verifyCtxSample
        (some serverVerificationMsg) true =
      Except.ok (RestartState.completed, none) :=
  (handleVerifying_completed_iff_nested verifyCtxSample
      serverVerificationMsg true).1.mpr ⟨rfl, rfl⟩

/-- C4: evidence that the reconnect ceiling is unreachable through the
real retry path.  From a connected manager, one unexpected close
followed by a failing scheduled retry reaches `reconnectLoopState`;
every further failing retry maps that state to itself — still
RECONNECTING, counter pinned at 1, another retry scheduled — because
`connect()` begins with `disconnect()`, which resets the counter before
`handleUnexpectedDisconnect` can compare it against the ceiling of 5.
The last conjunct shows the ceiling guard itself would stop and go to
FAILED if the counter ever reached 5: it is the reset that keeps the
episode unbounded, contradicting the claimed bound. -/
theorem reconnect_retries_forever_despite_ceiling :
    ConnectionManager.reconnectStep DEFAULT_CONFIG
        (ConnectionManager.reconnectStep DEFAULT_CONFIG connectedSample
          ConnectionManager.ReconnectEvent.unexpectedClose)
        ConnectionManager.ReconnectEvent.scheduledRetryFails =
      reconnectLoopState ∧
    (∀ n : Nat,
        (fun s => ConnectionManager.reconnectStep DEFAULT_CONFIG s
            ConnectionManager.ReconnectEvent.scheduledRetryFails)^[n]
          reconnectLoopState = reconnectLoopState) ∧
    reconnectLoopState.connectionState = ConnectionState.reconnecting ∧
    reconnectLoopState.reconnectAttempts = 1 ∧
    reconnectLoopState.reconnectTimerSet = true ∧
    DEFAULT_CONFIG.maxReconnectAttempts = 5 ∧
    ConnectionManager.handleUnexpectedDisconnect DEFAULT_CONFIG
        { reconnectLoopState with reconnectAttempts := 5 } =
      { reconnectLoopState with
          reconnectAttempts := 5
          connectionState := .failed
          reconnectTimerSet := false } := by
  refine ⟨by decide, ?_, by decide, by decide, by decide, by decide, by decide⟩
  intro n
  induction n with
  | zero => rfl
  | succ k ih =>
      rw [Function.iterate_succ_apply', ih]
      decide

/-- C5: `restoreState` on a persisted record whose context started more
than five minutes before now returns false and clears the storage,
leaving the machine untouched; on a fresh record in a non-terminal
phase it returns true, restores the saved state and context, and
re-enters that phase's handler. -/
theorem restoreState_stale_and_fresh (m : RestartMachineState)
    (d : PersistedData) (now : Int) :
    (now - d.context.startTime > 5 * 60 * 1000 →
        RestartStateMachine.restoreState m (some d) now =
          { returned := false, machine := m, clearedStorage := true
            reenteredPhase := none }) ∧
    (now - d.context.startTime ≤ 5 * 60 * 1000 →
      d.state ≠ RestartState.idle → d.state ≠ RestartState.completed →
      d.state ≠ RestartState.failed →
        RestartStateMachine.restoreState m (some d) now =
          { returned := true
            machine := { state := d.state, context := some d.context }
            clearedStorage := false
            reenteredPhase := some d.state }) := by
  constructor
  · intro h
    simp only [RestartStateMachine.restoreState]
    rw [if_pos h]
  · intro h h1 h2 h3
    simp only [RestartStateMachine.restoreState]
    rw [if_neg (not_lt.mpr h), if_pos ⟨h1, h2, h3⟩]

/-- Witness for C5: a RECONNECTING record persisted at time 100 is
discarded with the storage cleared when restored at 400000, and is
restored and re-entered when restored at 200000. -/
theorem restoreState_stale_and_fresh_witness :
    RestartStateMachine.restoreState idleMachineSample
        (some { state := .reconnecting, context := verifyCtxSample }) 400000 =
      { returned := false, machine := idleMachineSample
        clearedStorage := true, reenteredPhase := none } ∧
    RestartStateMachine.restoreState idleMachineSample
        (some { state := .reconnecting, context := verifyCtxSample }) 200000 =
      { returned := true
        machine := { state := .reconnecting, context := some verifyCtxSample }
        clearedStorage := false
        reenteredPhase := some .reconnecting } :=
  ⟨(restoreState_stale_and_fresh idleMachineSample
      { state := .reconnecting, context := verifyCtxSample } 400000).1
        (by decide),
   (restoreState_stale_and_fresh idleMachineSample
      { state := .reconnecting, context := verifyCtxSample } 200000).2
        (by decide) (by decide) (by decide) (by decide)⟩

/-- C6 counterexample: an unhealthy 2xx response and a non-2xx response
both produce `healthy = false` yet are cached until `now + 2000`, the
same long TTL as healthy results — not the ~0.5 s window the claim
assigns to every unhealthy outcome; only a thrown failure is cached
until `now + 500`. -/
theorem unhealthy_response_cached_long_cx :
    (HealthChecker.getHealthStatus none 9999
        (FetchOutcome.okResponse unhealthyBodySample) 1000).1.healthy = false ∧
    (HealthChecker.getHealthStatus none 9999
        (FetchOutcome.okResponse unhealthyBodySample) 1000).2.expiry = 3000 ∧
    (HealthChecker.getHealthStatus none 9999
        (FetchOutcome.errorResponse 503 "Service Unavailable") 1000).1.healthy
      = false ∧
    (HealthChecker.getHealthStatus none 9999
        (FetchOutcome.errorResponse 503 "Service Unavailable") 1000).2.expiry
      = 3000 ∧
    (HealthChecker.getHealthStatus none 9999
        (FetchOutcome.thrown "Network error") 1000).2.expiry = 1500 := by
  refine ⟨by decide, by decide, by decide, by decide, by decide⟩

/-- C6 (amended): `getHealthStatus` caches each computed result keyed by
target, with the TTL determined by how the probe ended — about 2 s for
every received HTTP response, healthy or unhealthy, 2xx or not, and
about 0.5 s only for outcomes whose fetch threw (network error, abort
on timeout, parse failure) — and the cached result is exactly the
returned one. -/
theorem getHealthStatus_cache_ttl_amended (port : Nat)
    (outcome : FetchOutcome) (now : Int) :
    (HealthChecker.getHealthStatus none port outcome now).2.expiry =
      now + responseTTL outcome ∧
    (HealthChecker.getHealthStatus none port outcome now).2.result =
      (HealthChecker.getHealthStatus none port outcome now).1 := by
  cases outcome <;> exact ⟨rfl, rfl⟩

/-- C7 counterexample: a healthy target that reports no timestamp and
an uptime of 10000 s (started long before `previousTimestamp`) makes
`verifyServiceRestart` return true — `getHealthStatus` defaulted the
missing timestamp to the probe time — while the claim's reading, which
only accepts a reported start time strictly after `previousTimestamp`,
is false on the same input. -/
theorem verifyServiceRestart_no_timestamp_cx :
    HealthChecker.verifyServiceRestart 1999000 none 9999
        (FetchOutcome.okResponse aliveNoTimestampBody) 2000000 = true ∧
    claimedVerifyRestarted 1999000
        (FetchOutcome.okResponse aliveNoTimestampBody) 2000000 = false :=
  ⟨by decide, by decide⟩

/-- C7 (amended): `verifyRestarted` returns true iff the target is
healthy and either its effective timestamp — the reported one, with a
missing or zero timestamp defaulted to the probe time — is nonzero and
strictly after `previousTimestamp`, or a reported uptime derives a
start time `now - uptime * 1000` strictly after `previousTimestamp`;
non-2xx responses and thrown errors yield false. -/
theorem verifyServiceRestart_amended (old : Int) (port : Nat)
    (outcome : FetchOutcome) (now : Int) :
    HealthChecker.verifyServiceRestart old none port outcome now =
      amendedVerifyRestarted old outcome now := by
  cases outcome with
  | okResponse data =>
      simp only [HealthChecker.verifyServiceRestart,
        HealthChecker.getHealthStatus, HealthChecker.fetchResult,
        amendedVerifyRestarted]
      by_cases hs : (data.status == "healthy") = true <;>
      by_cases h1 : jsOrInt data.timestamp now = 0 <;>
      by_cases h2 : jsOrInt data.timestamp now > old <;>
      cases hu : data.uptime <;>
      simp_all
  | errorResponse status statusText => rfl
  | thrown msg => rfl

/-- C10: `checkServiceHealth` is total — for every probe outcome it
returns a boolean: true exactly on a 2xx response declaring status
healthy, and false on an unhealthy declaration, a non-2xx response, and
every thrown network, timeout or parse failure. -/
theorem checkServiceHealth_never_throws (port : Nat)
    (outcome : FetchOutcome) (now : Int) :
    HealthChecker.checkServiceHealth none port outcome now =
      (match outcome with
        | FetchOutcome.okResponse body => body.status == "healthy"
        | FetchOutcome.errorResponse _ _ => false
        | FetchOutcome.thrown _ => false) := by
  cases outcome <;> rfl
